import Mathlib

/-!
Verification of the pgpool2_exporter metric-mapping and scrape engine
(`pgpool2_exporter.go`), shallowly embedded in Lean 4.

Modelling conventions:
* Go `float64` values are modelled by `GoFloat`: an exact rational for
  finite values plus the IEEE specials `nan`, `posInf`, `negInf` that the
  code produces (via `math.NaN()` and division by zero).  Floating-point
  rounding is not modelled; every numeric value the engine computes from
  counts is an exact small rational.
* Go maps are modelled as association lists; the `SHOW` result rows are
  lists of cells.  Go map iteration order is unspecified, so the model
  fixes first-occurrence order; every theorem below only uses
  order-insensitive consequences for map-ordered emissions.
* `database/sql` cells are modelled by `DbCell`, covering exactly the
  dynamic types the converters in the source switch on.
-/

namespace Pgpool2Exporter

/-- Model of a Go float64 value: an exact rational, or one of the IEEE
special values that the exporter code can produce. -/
inductive GoFloat where
  | num : ℚ → GoFloat
  | nan : GoFloat
  | posInf : GoFloat
  | negInf : GoFloat
deriving DecidableEq, Repr

/-- Go float64 division as used by the aggregators (both operands are
always finite counts in the source): finite/finite with the IEEE rules
for a zero divisor (`0/0 = NaN`, `x/0 = ±Inf`).  Non-finite operands do
not arise in this development and are mapped to `nan`. -/
def goDiv : GoFloat → GoFloat → GoFloat
  | .num a, .num b =>
    if b = 0 then
      if a = 0 then .nan else if 0 < a then .posInf else .negInf
    else .num (a / b)
  | _, _ => .nan

/-- Numeric value of a list of decimal digit characters. -/
def digitsVal (cs : List Char) : ℕ :=
  cs.foldl (fun a c => 10 * a + (c.toNat - 48)) 0

/-- Longest digit run at the head of a character list, and the rest. -/
def spanDigits (cs : List Char) : List Char × List Char :=
  (cs.takeWhile Char.isDigit, cs.dropWhile Char.isDigit)

/-- Boundary model of the standard-library float parser's unsigned
decimal mantissa: digits with an optional single decimal point, at least
one digit overall (`"1."`, `".5"` accepted; `"."`, `""` rejected).  The
value is represented exactly as a rational. -/
def parseUnsignedDec (cs : List Char) : Option ℚ :=
  let (ip, rest) := spanDigits cs
  match rest with
  | [] => if ip.isEmpty then none else some (digitsVal ip)
  | '.' :: rest2 =>
    let (fp, rest3) := spanDigits rest2
    if rest3.isEmpty then
      if ip.isEmpty && fp.isEmpty then none
      else some ((digitsVal ip : ℚ) + (digitsVal fp : ℚ) / ((10 : ℚ) ^ fp.length))
    else none
  | _ => none

/-- Boundary model of the exponent part after `e`/`E`: an optional sign
followed by at least one digit. -/
def parseExpDigits (cs : List Char) : Option ℤ :=
  match cs with
  | '+' :: ds => if !ds.isEmpty && ds.all Char.isDigit then some (digitsVal ds : ℤ) else none
  | '-' :: ds => if !ds.isEmpty && ds.all Char.isDigit then some (-(digitsVal ds : ℤ)) else none
  | ds => if !ds.isEmpty && ds.all Char.isDigit then some (digitsVal ds : ℤ) else none

/-- Split a character list at the first `e`/`E`, keeping what follows. -/
def splitExpChar : List Char → List Char × Option (List Char)
  | [] => ([], none)
  | c :: cs =>
    if c = 'e' ∨ c = 'E' then ([], some cs)
    else
      let (m, e) := splitExpChar cs
      (c :: m, e)

/-- Boundary model of the external standard-library float parser used by
the row converter (`strconv.ParseFloat`): an optional sign, the special
tokens `inf`/`infinity` (signed, case-insensitive) and `nan` (unsigned,
case-insensitive), otherwise a decimal literal with optional fraction
and optional exponent.  Hexadecimal literals and digit-separating
underscores are not modelled; no claim depends on them. -/
def parseGoFloat (s : String) : Option GoFloat :=
  let cs := s.data
  let (neg, rest) : Bool × List Char :=
    match cs with
    | '+' :: r => (false, r)
    | '-' :: r => (true, r)
    | r => (false, r)
  let lower := rest.map Char.toLower
  if lower = "inf".data ∨ lower = "infinity".data then
    some (if neg then .negInf else .posInf)
  else if cs.map Char.toLower = "nan".data then
    some .nan
  else
    let (m, e) := splitExpChar rest
    match parseUnsignedDec m with
    | none => none
    | some q =>
      let signed : ℚ := if neg then -q else q
      match e with
      | none => some (.num signed)
      | some ecs =>
        match parseExpDigits ecs with
        | none => none
        | some ex => some (.num (signed * (10 : ℚ) ^ ex))

/-- Model of one `database/sql` result cell, covering exactly the
dynamic types the converters in the source switch on: `int64`,
`float64`, `time.Time` (represented by its Unix seconds), `[]byte`,
`string`, `bool`, `nil`, and a catch-all for any other type. -/
inductive DbCell where
  | int (v : ℤ)
  | float (v : GoFloat)
  | time (unixSec : ℤ)
  | bytes (s : String)
  | str (s : String)
  | bool (b : Bool)
  | null
  | unknown
deriving DecidableEq, Repr

/-- Model of `dbToFloat64`: convert a result cell to a float64 for
Prometheus consumption; null maps to NaN with ok, string and byte cells
equal to the literal tokens `"nan"`/`"-nan"` map to NaN with ok, other
text is parsed, and an unknown type is NaN without ok. -/
def dbToFloat64 : DbCell → GoFloat × Bool
  | .int v => (.num (v : ℚ), true)
  | .float v => (v, true)
  | .time u => (.num (u : ℚ), true)
  | .bytes s =>
    if s = "-nan" ∨ s = "nan" then (.nan, true)
    else
      match parseGoFloat s with
      | some r => (r, true)
      | none => (.nan, false)
  | .str s =>
    if s = "-nan" ∨ s = "nan" then (.nan, true)
    else
      match parseGoFloat s with
      | some r => (r, true)
      | none => (.nan, false)
  | .bool b => (if b then .num 1 else .num 0, true)
  | .null => (.nan, true)
  | .unknown => (.nan, false)

/-- Decimal rendering used by `dbToString` for floats.  Boundary model
of the Go `%v` formatting: no claim inspects the exact text of a
float-valued label, so the rational is rendered as numerator or
numerator-slash-denominator. -/
def goFloatToString : GoFloat → String
  | .num q => if q.den = 1 then toString q.num else toString q.num ++ "/" ++ toString q.den
  | .nan => "NaN"
  | .posInf => "+Inf"
  | .negInf => "-Inf"

/-- Model of `dbToString`: convert a result cell to a string for
Prometheus labels; null maps to the empty string, an unknown type is
rejected. -/
def dbToString : DbCell → String × Bool
  | .int v => (toString v, true)
  | .float v => (goFloatToString v, true)
  | .time u => (toString u, true)
  | .null => ("", true)
  | .bytes s => (s, true)
  | .str s => (s, true)
  | .bool b => (if b then "true" else "false", true)
  | .unknown => ("", false)

/-- Model of `parseStatusField`: domain booleanization of the `status`
column text. -/
def parseStatusField (value : String) : GoFloat :=
  if value = "true" ∨ value = "up" ∨ value = "waiting" then .num 1
  else if value = "false" ∨ value = "unused" ∨ value = "down" then .num 0
  else .num 0

/-- Model of `columnUsage`: how a queried column is converted to a
Prometheus metric. -/
inductive ColumnUsage where
  | DISCARD
  | LABEL
  | COUNTER
  | GAUGE
  | MAPPEDMETRIC
  | DURATION
deriving DecidableEq, Repr

/-- Model of `ColumnMapping`: a (usage, description) pair for one column
of a status table. -/
structure ColumnMapping where
  usage : ColumnUsage
  description : String
deriving DecidableEq, Repr

/-- Go maps are modelled as association lists with distinct keys. -/
abbrev MetricMaps := List (String × List (String × ColumnMapping))

/-- The static column mapping table `metricMaps` of the source,
transcribed row for row. -/
def metricMaps : MetricMaps := [
  ("pool_nodes", [
    ("hostname", ⟨.LABEL, "Backend hostname"⟩),
    ("port", ⟨.LABEL, "Backend port"⟩),
    ("role", ⟨.LABEL, "Role (primary or standby)"⟩),
    ("status", ⟨.GAUGE, "Backend node Status (1 for up or waiting, 0 for down or unused)"⟩),
    ("select_cnt", ⟨.COUNTER, "SELECT statement counts issued to each backend"⟩),
    ("replication_delay", ⟨.GAUGE, "Replication delay"⟩)]),
  ("pool_backend_stats", [
    ("hostname", ⟨.LABEL, "Backend hostname"⟩),
    ("port", ⟨.LABEL, "Backend port"⟩),
    ("role", ⟨.LABEL, "Role (primary or standby)"⟩),
    ("status", ⟨.GAUGE, "Backend node Status (1 for up or waiting, 0 for down or unused)"⟩),
    ("select_cnt", ⟨.COUNTER, "SELECT statement counts issued to each backend"⟩),
    ("insert_cnt", ⟨.COUNTER, "INSERT statement counts issued to each backend"⟩),
    ("update_cnt", ⟨.COUNTER, "UPDATE statement counts issued to each backend"⟩),
    ("delete_cnt", ⟨.COUNTER, "DELETE statement counts issued to each backend"⟩),
    ("ddl_cnt", ⟨.COUNTER, "DDL statement counts issued to each backend"⟩),
    ("other_cnt", ⟨.COUNTER, "other statement counts issued to each backend"⟩),
    ("panic_cnt", ⟨.COUNTER, "Panic message counts returned from backend"⟩),
    ("fatal_cnt", ⟨.COUNTER, "Fatal message counts returned from backend)"⟩),
    ("error_cnt", ⟨.COUNTER, "Error message counts returned from backend"⟩)]),
  ("pool_health_check_stats", [
    ("hostname", ⟨.LABEL, "Backend hostname"⟩),
    ("port", ⟨.LABEL, "Backend port"⟩),
    ("role", ⟨.LABEL, "Role (primary or standby)"⟩),
    ("status", ⟨.GAUGE, "Backend node Status (1 for up or waiting, 0 for down or unused)"⟩),
    ("total_count", ⟨.GAUGE, "Number of health check count in total"⟩),
    ("success_count", ⟨.GAUGE, "Number of successful health check count in total"⟩),
    ("fail_count", ⟨.GAUGE, "Number of failed health check count in total"⟩),
    ("skip_count", ⟨.GAUGE, "Number of skipped health check count in total"⟩),
    ("retry_count", ⟨.GAUGE, "Number of retried health check count in total"⟩),
    ("average_retry_count", ⟨.GAUGE, "Number of average retried health check count in a health check session"⟩),
    ("max_retry_count", ⟨.GAUGE, "Number of maximum retried health check count in a health check session"⟩),
    ("max_duration", ⟨.GAUGE, "Maximum health check duration in Millie seconds"⟩),
    ("min_duration", ⟨.GAUGE, "Minimum health check duration in Millie seconds"⟩),
    ("average_duration", ⟨.GAUGE, "Average health check duration in Millie seconds"⟩)]),
  ("pool_processes", [
    ("pool_pid", ⟨.DISCARD, "PID of Pgpool-II child processes"⟩),
    ("database", ⟨.DISCARD, "Database name of the currently active backend connection"⟩)]),
  ("pool_pools", [
    ("pool_pid", ⟨.DISCARD, "PID of Pgpool-II child processes"⟩)]),
  ("pool_cache", [
    ("num_cache_hits", ⟨.GAUGE, "The number of hits against the query cache"⟩),
    ("num_selects", ⟨.GAUGE, "The number of SELECT that did not hit against the query cache"⟩),
    ("cache_hit_ratio", ⟨.GAUGE, "Query cache hit ratio"⟩),
    ("num_hash_entries", ⟨.GAUGE, "Number of total hash entries"⟩),
    ("used_hash_entries", ⟨.GAUGE, "Number of used hash entries"⟩),
    ("num_cache_entries", ⟨.GAUGE, "Number of used cache entries"⟩),
    ("used_cache_entries_size", ⟨.GAUGE, "Total size in bytes of used cache size"⟩),
    ("free_cache_entries_size", ⟨.GAUGE, "Total size in bytes of free cache size"⟩),
    ("fragment_cache_entries_size", ⟨.GAUGE, "Total size in bytes of the fragmented cache"⟩)])]

/-- Prometheus value type of a compiled descriptor. -/
inductive ValueType where
  | counter
  | gauge
  | untyped
deriving DecidableEq, Repr

/-- Model of the `MetricMap` struct: the compiled per-column descriptor.
The `fqName` and `varLabels` fields model the `prometheus.Desc` built by
`makeDescMap` (fully-qualified name and variable label names); the
`conversion` field models the stored conversion closure. -/
structure MetricMap where
  discard : Bool
  vtype : ValueType
  fqName : String
  varLabels : List String
  help : String
  conversion : DbCell → GoFloat × Bool

/-- Model of `MetricMapNamespace`: the per-table shared label-name list
and the compiled column map. -/
structure MetricMapNamespace where
  labels : List String
  columnMappings : List (String × MetricMap)

/-- Model of the loop body of `makeDescMap` for one status table: first
collect the columns with usage LABEL into the table's shared label
list, then build one compiled entry per column — DISCARD and LABEL
columns become discarded no-op entries, COUNTER and GAUGE columns
become descriptors reusing the shared label list, and the unexercised
usages (MAPPEDMETRIC, DURATION) fall through the Go switch and produce
no entry. -/
def makeDescMapEntry (nspace : String) (t : String × List (String × ColumnMapping)) :
    String × MetricMapNamespace :=
  let metricNamespace := t.1
  let mappings := t.2
  let variableLabels := (mappings.filter (fun p => p.2.usage = .LABEL)).map Prod.fst
  let thisMap : List (String × MetricMap) := mappings.filterMap (fun p =>
    match p.2.usage with
    | .DISCARD => some (p.1,
        ⟨true, .untyped, "", [], "", fun _ => (.nan, true)⟩)
    | .LABEL => some (p.1,
        ⟨true, .untyped, "", [], "", fun _ => (.nan, true)⟩)
    | .COUNTER => some (p.1,
        ⟨false, .counter, nspace ++ "_" ++ metricNamespace ++ "_" ++ p.1, variableLabels,
          p.2.description, dbToFloat64⟩)
    | .GAUGE => some (p.1,
        ⟨false, .gauge, nspace ++ "_" ++ metricNamespace ++ "_" ++ p.1, variableLabels,
          p.2.description, dbToFloat64⟩)
    | .MAPPEDMETRIC => none
    | .DURATION => none)
  (metricNamespace, ⟨variableLabels, thisMap⟩)

/-- Model of `makeDescMap`: compile every status table of the mapping
table once. -/
def makeDescMap (mm : MetricMaps) (nspace : String) : List (String × MetricMapNamespace) :=
  mm.map (makeDescMapEntry nspace)

/-- One emitted Prometheus metric sample: the descriptor data it was
built against (fully-qualified name and variable label names), the label
values in descriptor order, the value type and the value. -/
structure Sample where
  fqName : String
  varLabels : List String
  labelValues : List String
  vtype : ValueType
  value : GoFloat
deriving DecidableEq, Repr

/-- Model of the `columnIdx` lookup map built from the result column
list: each name maps to its index, a later duplicate overwriting an
earlier one; a missing name yields `none` (the Go map lookup would yield
the zero value 0, applied at the use sites below). -/
def columnIdx (cols : List String) (name : String) : Option ℕ :=
  cols.enum.foldl (fun acc p => if p.2 = name then some p.1 else acc) none

/-- Cell of a row at an index; an out-of-range index (a Go panic, which
never arises for indices produced by `columnIdx`) is modelled as null. -/
def cellAt (data : List DbCell) (i : ℕ) : DbCell :=
  data.getD i .null

/-- Label values of one generic-table row, in the table's fixed label
order: each label name is resolved through the column-index map (a
missing name defaulting to index 0, the Go zero value) and converted by
`dbToString`, its error flag ignored as in the source. -/
def rowLabels (mapping : MetricMapNamespace) (cols : List String) (data : List DbCell) :
    List String :=
  mapping.labels.map (fun l => (dbToString (cellAt data ((columnIdx cols l).getD 0))).1)

/-- Model of the per-column loop of the generic branch of
`queryNamespaceMapping`, over the enumerated result columns of one row:
columns absent from the compiled map or marked discard are skipped, the
`status` column goes through `dbToString` then `parseStatusField`, every
other mapped column goes through `dbToFloat64`, a failed conversion
appends a non-fatal error instead of a sample. -/
def processColumns (nspace : String) (mapping : MetricMapNamespace) (labels : List String)
    (data : List DbCell) : List (ℕ × String) → List Sample × List String
  | [] => ([], [])
  | p :: rest =>
    let idx := p.1
    let columnName := p.2
    let tail := processColumns nspace mapping labels data rest
    match List.lookup columnName mapping.columnMappings with
    | none => tail
    | some m =>
      if m.discard then tail
      else if columnName = "status" then
        match dbToString (cellAt data idx) with
        | (valueString, true) =>
          (⟨m.fqName, m.varLabels, labels, m.vtype, parseStatusField valueString⟩ :: tail.1,
            tail.2)
        | (_, false) =>
          (tail.1, ("Unexpected error parsing column: " ++ nspace ++ " " ++ columnName) :: tail.2)
      else
        match dbToFloat64 (cellAt data idx) with
        | (value, true) =>
          (⟨m.fqName, m.varLabels, labels, m.vtype, value⟩ :: tail.1, tail.2)
        | (_, false) =>
          (tail.1, ("Unexpected error parsing column: " ++ nspace ++ " " ++ columnName) :: tail.2)

/-- Samples and non-fatal errors of one generic-table row. -/
def processRow (nspace : String) (mapping : MetricMapNamespace) (cols : List String)
    (data : List DbCell) : List Sample × List String :=
  processColumns nspace mapping (rowLabels mapping cols data) data cols.enum

/-- Model of the generic row loop of `queryNamespaceMapping`: samples
and non-fatal errors accumulated over all rows in order. -/
def queryGenericRows (nspace : String) (mapping : MetricMapNamespace) (cols : List String) :
    List (List DbCell) → List Sample × List String
  | [] => ([], [])
  | r :: rs =>
    let head := processRow nspace mapping cols r
    let tail := queryGenericRows nspace mapping cols rs
    (head.1 ++ tail.1, head.2 ++ tail.2)

/-- Model of the per-row column-extraction loop of the special branches:
iterate the result columns in order, assigning the string conversion of
the cell whenever the column name matches, so that a later duplicate
column overwrites an earlier one and a missing column leaves the Go zero
value, the empty string. -/
def extractCol (cols : List String) (data : List DbCell) (name : String) : String :=
  cols.enum.foldl (fun acc p => if p.2 = name then (dbToString (cellAt data p.1)).1 else acc) ""

/-- One `SHOW pool_pools` row after string extraction. -/
structure PoolRow where
  pool_pid : String
  pool_id : String
  backend_id : String
  username : String
  database : String
deriving DecidableEq, Repr

/-- Extraction of the five named columns of a `pool_pools` row. -/
def poolPoolsRow (cols : List String) (data : List DbCell) : PoolRow :=
  ⟨extractCol cols data "pool_pid", extractCol cols data "pool_id",
    extractCol cols data "backend_id", extractCol cols data "username",
    extractCol cols data "database"⟩

/-- Rows the pool_pools aggregator classifies as in use: a non-empty
bound username. -/
def usedRows (rows : List PoolRow) : List PoolRow :=
  rows.filter (fun r => r.username ≠ "")

/-- The distinct keys of the nested `backendsInUse` map, flattened: one
per distinct (pool_pid, pool_id, backend_id, username, database)
combination among the used rows, in first-occurrence order. -/
def usedKeys (rows : List PoolRow) : List PoolRow :=
  (usedRows rows).dedup

/-- The key set of `backendsInUse` at the top level: the distinct
pool_pid values among the used rows, in first-occurrence order. -/
def usedPids (rows : List PoolRow) : List String :=
  ((usedRows rows).map PoolRow.pool_pid).dedup

/-- The leaf entries of `backendsInUse` under one process id. -/
def pidKeys (rows : List PoolRow) (pid : String) : List PoolRow :=
  (usedKeys rows).filter (fun k => k.pool_pid = pid)

/-- Model of `totalBackends`: rows counted, i.e. rows with a non-empty
pool_pid. -/
def totalBackends (rows : List PoolRow) : ℕ :=
  (rows.filter (fun r => r.pool_pid ≠ "")).length

/-- Model of `totalBackendsInUse`: rows with a non-empty username. -/
def totalBackendsInUse (rows : List PoolRow) : ℕ :=
  (usedRows rows).length

/-- Model of the `totalBackendsByProcess` map: rows with the given
pool_pid, counted only when non-empty (a missing key reads as the Go
zero value 0). -/
def totalBackendsByProcess (rows : List PoolRow) (pid : String) : ℕ :=
  (rows.filter (fun r => r.pool_pid = pid ∧ r.pool_pid ≠ "")).length

/-- Leaf count of `backendsInUse` at one key: the number of used rows
sharing all five fields. -/
def usedKeyCount (rows : List PoolRow) (k : PoolRow) : ℕ :=
  ((usedRows rows).filter (fun r => r = k)).length

/-- Model of the per-process emission loop variable
`usedProcessBackends`: the number of leaf entries under the process. -/
def usedProcessBackends (rows : List PoolRow) (pid : String) : ℕ :=
  (pidKeys rows pid).length

/-- The per-process sample block of the pool_pools aggregator: one
`backend_by_process_used` sample per leaf entry, then the per-process
ratio and total samples. -/
def poolPoolsPidBlock (rows : List PoolRow) (pid : String) : List Sample :=
  ((pidKeys rows pid).map (fun k =>
    ⟨"pgpool2_backend_by_process_used",
      ["pool_pid", "pool_id", "backend_id", "username", "database"],
      [k.pool_pid, k.pool_id, k.backend_id, k.username, k.database],
      .gauge, .num (usedKeyCount rows k : ℚ)⟩))
  ++ [⟨"pgpool2_backend_by_process_used_ratio", ["pool_pid"], [pid], .gauge,
        goDiv (.num (usedProcessBackends rows pid : ℚ)) (.num (totalBackendsByProcess rows pid : ℚ))⟩,
      ⟨"pgpool2_backend_by_process_total", ["pool_pid"], [pid], .gauge,
        .num (totalBackendsByProcess rows pid : ℚ)⟩]

/-- Model of the `pool_pools` branch of `queryNamespaceMapping`: the
per-process blocks over the processes with at least one used slot,
followed by the three process-independent totals. -/
def poolPoolsSamples (rows : List PoolRow) : List Sample :=
  ((usedPids rows).map (poolPoolsPidBlock rows)).flatten
  ++ [⟨"pgpool2_backend_total", [], [], .gauge, .num (totalBackends rows : ℚ)⟩,
      ⟨"pgpool2_backend_used", [], [], .gauge, .num (totalBackendsInUse rows : ℚ)⟩,
      ⟨"pgpool2_backend_used_ratio", [], [], .gauge,
        goDiv (.num (totalBackendsInUse rows : ℚ)) (.num (totalBackends rows : ℚ))⟩]

/-- One `SHOW pool_processes` row after string extraction. -/
structure ProcRow where
  database : String
  username : String
deriving DecidableEq, Repr

/-- Extraction of the two named columns of a `pool_processes` row. -/
def procRowOf (cols : List String) (data : List DbCell) : ProcRow :=
  ⟨extractCol cols data "database", extractCol cols data "username"⟩

/-- Rows the pool_processes aggregator classifies as used: both the
bound database and the bound username non-empty. -/
def frontendUsedRows (rows : List ProcRow) : List ProcRow :=
  rows.filter (fun r => r.database ≠ "" ∧ r.username ≠ "")

/-- Model of `frontend_total`: every row is counted. -/
def frontendTotal (rows : List ProcRow) : ℕ :=
  rows.length

/-- Model of `frontend_used`: the used rows are counted. -/
def frontendUsed (rows : List ProcRow) : ℕ :=
  (frontendUsedRows rows).length

/-- The distinct (username, database) pairs of the `frontendByUserDb`
nested map, in first-occurrence order over the used rows. -/
def frontendPairs (rows : List ProcRow) : List (String × String) :=
  ((frontendUsedRows rows).map (fun r => (r.username, r.database))).dedup

/-- Count of used rows bound to one (username, database) pair. -/
def frontendPairCount (rows : List ProcRow) (p : String × String) : ℕ :=
  ((frontendUsedRows rows).filter (fun r => (r.username, r.database) = p)).length

/-- Model of the `pool_processes` branch of `queryNamespaceMapping`:
one grouped `frontend_used` sample per distinct (username, database)
pair among the used rows, then the total and the used ratio. -/
def poolProcessesSamples (rows : List ProcRow) : List Sample :=
  ((frontendPairs rows).map (fun p =>
    ⟨"pgpool2_frontend_used", ["username", "database"], [p.1, p.2], .gauge,
      .num (frontendPairCount rows p : ℚ)⟩))
  ++ [⟨"pgpool2_frontend_total", [], [], .gauge, .num (frontendTotal rows : ℚ)⟩,
      ⟨"pgpool2_frontend_used_ratio", [], [], .gauge,
        goDiv (.num (frontendUsed rows : ℚ)) (.num (frontendTotal rows : ℚ))⟩]

/-- Outcome of issuing the `SHOW` query of one table: the query itself
may fail, the column introspection may fail, or a column list and rows
are returned. -/
inductive QueryResult where
  | queryError
  | columnsError
  | ok (cols : List String) (rows : List (List DbCell))

/-- Model of `queryNamespaceMapping`: dispatch the query outcome for one
table, returning its samples, its non-fatal errors and its fatal error
if any.  A query or introspection failure is fatal for the table; the
two special tables take their bespoke aggregators, every other table
takes the generic row loop. -/
def queryNamespaceMapping (qr : QueryResult) (nspace : String)
    (mapping : MetricMapNamespace) : List Sample × List String × Option String :=
  match qr with
  | .queryError => ([], [], some ("Error running query on database: " ++ nspace))
  | .columnsError => ([], [], some ("Error retrieving column list for: " ++ nspace))
  | .ok cols rows =>
    if nspace = "pool_pools" then
      (poolPoolsSamples (rows.map (poolPoolsRow cols)), [], none)
    else if nspace = "pool_processes" then
      (poolProcessesSamples (rows.map (procRowOf cols)), [], none)
    else
      let g := queryGenericRows nspace mapping cols rows
      (g.1, g.2, none)

/-- Semantic version, as compared by the gating check (major, minor,
patch; no prerelease data arises). -/
structure Semver where
  major : ℕ
  minor : ℕ
  patch : ℕ
deriving DecidableEq, Repr

/-- Lexicographic strict order on versions, the `LT` of the semver
library restricted to plain versions. -/
def semverLT (a b : Semver) : Bool :=
  a.major < b.major ∨
    (a.major = b.major ∧ (a.minor < b.minor ∨ (a.minor = b.minor ∧ a.patch < b.patch)))

/-- The gate version `version42` of the source. -/
def version42 : Semver := ⟨4, 2, 0⟩

/-- The namespaces subject to version gating in the orchestrator. -/
def gatedNamespace (ns : String) : Bool :=
  ns = "pool_backend_stats" ∨ ns = "pool_health_check_stats"

/-- The detected server version held in `PgpoolSemver`: the startup code
logs a detection error and unconditionally assigns the result, and a
failed `QueryVersion` returns the zero `semver.Version`, so an unknown
version reads as 0.0.0. -/
def effectiveVersion : Option Semver → Semver
  | some v => v
  | none => ⟨0, 0, 0⟩

/-- Model of `queryNamespaceMappings`: iterate the compiled tables,
skipping the gated tables when the detected version is below 4.2.0,
otherwise issuing the table's query and collecting its fatal error under
the table's name.  Returns the queried table names, the emitted samples
tagged with their table, and the keys of the error map. -/
def queryNamespaceMappings (ver : Semver) (outcome : String → QueryResult) :
    List (String × MetricMapNamespace) → List String × List (String × Sample) × List String
  | [] => ([], [], [])
  | t :: rest =>
    let ns := t.1
    let tail := queryNamespaceMappings ver outcome rest
    if gatedNamespace ns ∧ semverLT ver version42 then tail
    else
      let q := queryNamespaceMapping (outcome ns) ns t.2
      (ns :: tail.1,
        (q.1.map (fun s => (ns, s))) ++ tail.2.1,
        match q.2.2 with
        | some _ => ns :: tail.2.2
        | none => tail.2.2)

/-- Observable trace of one `Exporter.scrape` call: the increment to the
scrapes_total counter, the ordered writes to the up and error gauges
(the last write is the gauge's final value when the call returns, the
deferred duration/error function running last), the number of liveness
probes issued, the queried tables, the tagged emissions and the error
map keys. -/
structure ScrapeTrace where
  totalScrapesInc : ℕ
  upWrites : List GoFloat
  errorWrites : List GoFloat
  pings : ℕ
  queried : List String
  emitted : List (String × Sample)
  errTables : List String
deriving Repr

/-- The body of `scrape` after a successful probe: set up to 1, set
error to 0, run the full table pass, set error to 1 when the error map
is non-empty; on return the deferred function sees the probe's nil
error and appends a final error write of 0. -/
def scrapeBody (pings : ℕ) (ver : Semver) (outcome : String → QueryResult)
    (metricMap : List (String × MetricMapNamespace)) : ScrapeTrace :=
  let q := queryNamespaceMappings ver outcome metricMap
  { totalScrapesInc := 1
    upWrites := [.num 1]
    errorWrites := [.num 0] ++ (if q.2.2.isEmpty then [] else [.num 1]) ++ [.num 0]
    pings := pings
    queried := q.1
    emitted := q.2.1
    errTables := q.2.2 }

/-- Model of `Exporter.scrape`: increment the counter; probe the live
connection; on failure close it, reopen with the same DSN and probe the
fresh connection once more; if that also fails set up to 0 and return
with no table queried (the deferred function then writes error 1, the
probe error being non-nil); otherwise run the body. -/
def scrape (ping1Ok ping2Ok : Bool) (ver : Semver) (outcome : String → QueryResult)
    (metricMap : List (String × MetricMapNamespace)) : ScrapeTrace :=
  if ping1Ok then scrapeBody 1 ver outcome metricMap
  else if ping2Ok then scrapeBody 2 ver outcome metricMap
  else
    { totalScrapesInc := 1
      upWrites := [.num 0]
      errorWrites := [.num 1]
      pings := 2
      queried := []
      emitted := []
      errTables := [] }

/-- Final value of a gauge after a sequence of writes. -/
def finalWrite (ws : List GoFloat) : Option GoFloat :=
  ws.getLast?

/-- The pool_nodes row of the static column mapping table, used to
instantiate the generic-scraper theorems on a concrete table. -/
def poolNodesTable : String × List (String × ColumnMapping) :=
  metricMaps.headD ("", [])

/-- A small concrete compiled entry used to instantiate the
conversion-failure theorem. -/
def demoMetricA : MetricMap := ⟨false, .gauge, "t_a", [], "", dbToFloat64⟩

/-- A second concrete compiled entry, sibling of `demoMetricA`. -/
def demoMetricB : MetricMap := ⟨false, .gauge, "t_b", [], "", dbToFloat64⟩

/-- A small concrete compiled table with two gauge columns. -/
def demoMapping : MetricMapNamespace :=
  ⟨[], [("a", demoMetricA), ("b", demoMetricB)]⟩

/-- C5: the cell-to-float conversion `dbToFloat64` is a total function
over all supported cell types: integers map to their float value with
ok, floats pass through with ok, timestamps map to Unix seconds with
ok, booleans map to 1.0/0.0 with ok, null maps to (NaN, ok), the
literal tokens "nan" and "-nan" (as string or byte sequence) map to
(NaN, ok), any other text maps to its parsed value with ok or to
(NaN, not-ok) when unparseable, and an unknown type maps to
(NaN, not-ok). -/
theorem dbToFloat64_total_cases :
    (∀ v : ℤ, dbToFloat64 (.int v) = (.num (v : ℚ), true)) ∧
    (∀ f : GoFloat, dbToFloat64 (.float f) = (f, true)) ∧
    (∀ u : ℤ, dbToFloat64 (.time u) = (.num (u : ℚ), true)) ∧
    (∀ b : Bool, dbToFloat64 (.bool b) = (if b then GoFloat.num 1 else GoFloat.num 0, true)) ∧
    dbToFloat64 .null = (.nan, true) ∧
    (∀ s : String, (s = "nan" ∨ s = "-nan") →
      dbToFloat64 (.str s) = (.nan, true) ∧ dbToFloat64 (.bytes s) = (.nan, true)) ∧
    (∀ s : String, s ≠ "nan" → s ≠ "-nan" →
      (∀ q : GoFloat, parseGoFloat s = some q →
        dbToFloat64 (.str s) = (q, true) ∧ dbToFloat64 (.bytes s) = (q, true)) ∧
      (parseGoFloat s = none →
        dbToFloat64 (.str s) = (.nan, false) ∧ dbToFloat64 (.bytes s) = (.nan, false))) ∧
    dbToFloat64 .unknown = (.nan, false) ∧
    dbToFloat64 (.str "notanumber") = (.nan, false) := by
  refine ⟨fun v => rfl, fun f => rfl, fun u => rfl, fun b => rfl, rfl, ?_, ?_, rfl, ?_⟩
  · rintro s (rfl | rfl) <;> exact ⟨rfl, rfl⟩
  · intro s h1 h2
    have hcond : ¬(s = "-nan" ∨ s = "nan") := by
      rintro (h | h) <;> [exact h2 h; exact h1 h]
    constructor
    · intro q hq
      constructor <;> simp [dbToFloat64, hcond, hq]
    · intro hq
      constructor <;> simp [dbToFloat64, hcond, hq]
  · rfl

/-- Witness for C5: instantiates the hypothesis-bearing cases of
`dbToFloat64_total_cases` at the literal token "nan" and at the
unparseable string "notanumber". -/
theorem dbToFloat64_total_cases_witness :
    dbToFloat64 (.str "nan") = (.nan, true) ∧
    dbToFloat64 (.str "notanumber") = (.nan, false) := by
  refine ⟨(dbToFloat64_total_cases.2.2.2.2.2.1 "nan" (Or.inl rfl)).1, ?_⟩
  exact ((dbToFloat64_total_cases.2.2.2.2.2.2.1 "notanumber" (by decide) (by decide)).2
    (by rfl)).1

/-- C6: the status-string conversion `parseStatusField` is total and
never errors: "true", "up" and "waiting" map to 1.0, "false", "unused"
and "down" map to 0.0, and every other string maps to 0.0. -/
theorem parseStatusField_total :
    (∀ s : String, (s = "true" ∨ s = "up" ∨ s = "waiting") → parseStatusField s = .num 1) ∧
    (∀ s : String, (s = "false" ∨ s = "unused" ∨ s = "down") → parseStatusField s = .num 0) ∧
    (∀ s : String, s ∉ (["true", "up", "waiting", "false", "unused", "down"] : List String) →
      parseStatusField s = .num 0) := by
  refine ⟨?_, ?_, ?_⟩
  · intro s h
    simp only [parseStatusField, if_pos h]
  · rintro s (rfl | rfl | rfl) <;> rfl
  · intro s h
    simp only [List.mem_cons, List.not_mem_nil, or_false] at h
    push_neg at h
    obtain ⟨h1, h2, h3, h4, h5, h6⟩ := h
    simp [parseStatusField, h1, h2, h3, h4, h5, h6]

/-- Witness for C6: instantiates `parseStatusField_total` at one token
from each class. -/
theorem parseStatusField_total_witness :
    parseStatusField "waiting" = .num 1 ∧ parseStatusField "unused" = .num 0 ∧
    parseStatusField "quarantine" = .num 0 := by
  exact ⟨parseStatusField_total.1 "waiting" (Or.inr (Or.inr rfl)),
    parseStatusField_total.2.1 "unused" (Or.inr (Or.inl rfl)),
    parseStatusField_total.2.2 "quarantine" (by decide)⟩

/-- The queried-table component of the orchestrator pass: every table of
the compiled map, in order, except the gated ones below the gate
version. -/
theorem queryNamespaceMappings_queried (ver : Semver) (outcome : String → QueryResult) :
    ∀ mm : List (String × MetricMapNamespace),
      (queryNamespaceMappings ver outcome mm).1 =
        (mm.map Prod.fst).filter (fun ns => !(gatedNamespace ns && semverLT ver version42)) := by
  intro mm
  induction mm with
  | nil => rfl
  | cons t rest ih =>
    by_cases h : gatedNamespace t.1 ∧ semverLT ver version42
    · simp only [queryNamespaceMappings, if_pos h, List.map_cons, List.filter_cons]
      rw [ih]
      simp [h.1, h.2]
    · simp only [queryNamespaceMappings, if_neg h, List.map_cons, List.filter_cons]
      have hb : (gatedNamespace t.1 && semverLT ver version42) = false := by
        cases hg : gatedNamespace t.1 <;> cases hs : semverLT ver version42 <;> simp_all
      simp [hb, ih]

/-- A gated table below the gate version is never queried and never
tagged on an emission. -/
theorem gated_table_skipped (ver : Semver) (outcome : String → QueryResult) (ns : String)
    (hg : gatedNamespace ns = true) (hlt : semverLT ver version42 = true) :
    ∀ mm : List (String × MetricMapNamespace),
      ns ∉ (queryNamespaceMappings ver outcome mm).1 ∧
        ∀ s : Sample, (ns, s) ∉ (queryNamespaceMappings ver outcome mm).2.1 := by
  intro mm
  induction mm with
  | nil => simp [queryNamespaceMappings]
  | cons t rest ih =>
    by_cases h : gatedNamespace t.1 ∧ semverLT ver version42
    · simpa only [queryNamespaceMappings, if_pos h] using ih
    · have hne : t.1 ≠ ns := by
        rintro rfl
        exact h ⟨hg, hlt⟩
      simp only [queryNamespaceMappings, if_neg h]
      constructor
      · simp only [List.mem_cons]
        rintro (rfl | hmem)
        · exact hne rfl
        · exact ih.1 hmem
      · intro s
        simp only [List.mem_append, List.mem_map]
        rintro (⟨s', _, heq⟩ | hmem)
        · exact hne (congrArg Prod.fst heq)
        · exact ih.2 s hmem

/-- A table of the compiled map is queried whenever the gate does not
suppress it. -/
theorem table_queried_of_not_skipped (ver : Semver) (outcome : String → QueryResult)
    (ns : String) (hc : ¬(gatedNamespace ns = true ∧ semverLT ver version42 = true)) :
    ∀ mm : List (String × MetricMapNamespace),
      ns ∈ mm.map Prod.fst → ns ∈ (queryNamespaceMappings ver outcome mm).1 := by
  intro mm
  induction mm with
  | nil => simp
  | cons t rest ih =>
    intro hmem
    rcases List.mem_cons.mp hmem with heq | hmem'
    · have hcond : ¬(gatedNamespace t.1 ∧ semverLT ver version42) := fun hx =>
        hc (by rw [heq]; exact hx)
      simp only [queryNamespaceMappings, if_neg hcond]
      rw [heq]
      exact List.mem_cons_self _ _
    · by_cases h : gatedNamespace t.1 ∧ semverLT ver version42
      · simpa only [queryNamespaceMappings, if_pos h] using ih hmem'
      · simp only [queryNamespaceMappings, if_neg h]
        exact List.mem_cons_of_mem _ (ih hmem')

/-- C1 (code behaviour at the failing input): scrape with a successful
connection probe and a fatal query error on pool_nodes.  The pass
records the table in the error map and the body writes 1 to the
last_scrape_error gauge, but the deferred duration/error function —
which observes only the probe error, nil on this path — runs last and
writes 0, so the gauge's final value when the call returns is 0, not 1
as claimed. -/
theorem scrape_error_gauge_overwritten :
    (scrape true true ⟨4, 2, 0⟩
        (fun ns => if ns = "pool_nodes" then .queryError else .ok [] [])
        (makeDescMap metricMaps "pgpool2")).errTables = ["pool_nodes"] ∧
    GoFloat.num 1 ∈ (scrape true true ⟨4, 2, 0⟩
        (fun ns => if ns = "pool_nodes" then .queryError else .ok [] [])
        (makeDescMap metricMaps "pgpool2")).errorWrites ∧
    finalWrite ((scrape true true ⟨4, 2, 0⟩
        (fun ns => if ns = "pool_nodes" then .queryError else .ok [] [])
        (makeDescMap metricMaps "pgpool2")).errorWrites) = some (.num 0) := by
  refine ⟨by decide, by decide, by decide⟩

/-- C4: on every scrape tick, the liveness probe is retried exactly once
after a failure; if both probes fail the up gauge ends at 0 and no table
query is issued and nothing is emitted; if the first or the retry probe
succeeds the up gauge ends at 1 and the full table pass of the same
cycle runs, querying every compiled table the version gate admits. -/
theorem scrape_probe_lifecycle (ping1Ok ping2Ok : Bool) (ver : Semver)
    (outcome : String → QueryResult) (mm : List (String × MetricMapNamespace)) :
    (scrape ping1Ok ping2Ok ver outcome mm).pings = (if ping1Ok then 1 else 2) ∧
    (¬ping1Ok = true → ¬ping2Ok = true →
      finalWrite (scrape ping1Ok ping2Ok ver outcome mm).upWrites = some (.num 0) ∧
      (scrape ping1Ok ping2Ok ver outcome mm).queried = [] ∧
      (scrape ping1Ok ping2Ok ver outcome mm).emitted = []) ∧
    (ping1Ok = true ∨ ping2Ok = true →
      finalWrite (scrape ping1Ok ping2Ok ver outcome mm).upWrites = some (.num 1) ∧
      (scrape ping1Ok ping2Ok ver outcome mm).queried =
        (mm.map Prod.fst).filter (fun ns => !(gatedNamespace ns && semverLT ver version42)) ∧
      ∀ ns ∈ mm.map Prod.fst, ¬(gatedNamespace ns = true ∧ semverLT ver version42 = true) →
        ns ∈ (scrape ping1Ok ping2Ok ver outcome mm).queried) := by
  cases ping1Ok with
  | true =>
    refine ⟨rfl, by simp, fun _ => ?_⟩
    refine ⟨rfl, ?_, ?_⟩
    · exact queryNamespaceMappings_queried ver outcome mm
    · intro ns hns hc
      exact table_queried_of_not_skipped ver outcome ns hc mm hns
  | false =>
    cases ping2Ok with
    | true =>
      refine ⟨rfl, by simp, fun _ => ?_⟩
      refine ⟨rfl, ?_, ?_⟩
      · exact queryNamespaceMappings_queried ver outcome mm
      · intro ns hns hc
        exact table_queried_of_not_skipped ver outcome ns hc mm hns
    | false =>
      refine ⟨rfl, fun _ _ => ⟨rfl, rfl, rfl⟩, ?_⟩
      rintro (h | h) <;> exact absurd h (by simp)

/-- Witness for C4: first probe fails, retry succeeds, over the compiled
static table with version 4.2.0 — up ends at 1 and the pass queries the
full filtered table list. -/
theorem scrape_probe_lifecycle_witness :
    finalWrite (scrape false true ⟨4, 2, 0⟩ (fun _ => .ok [] [])
        (makeDescMap metricMaps "pgpool2")).upWrites = some (.num 1) ∧
    (scrape false true ⟨4, 2, 0⟩ (fun _ => .ok [] [])
        (makeDescMap metricMaps "pgpool2")).queried =
      ((makeDescMap metricMaps "pgpool2").map Prod.fst).filter
        (fun ns => !(gatedNamespace ns && semverLT ⟨4, 2, 0⟩ version42)) := by
  have h := (scrape_probe_lifecycle false true ⟨4, 2, 0⟩ (fun _ => .ok [] [])
    (makeDescMap metricMaps "pgpool2")).2.2 (Or.inr rfl)
  exact ⟨h.1, h.2.1⟩

/-- C3: the version-gated tables (pool_backend_stats and
pool_health_check_stats) are skipped entirely — not queried and
emitting no sample — whenever the detected version is strictly below
4.2.0, and likewise when version detection failed (the unknown version
reading as 0.0.0); at 4.2.0 or above they are queried. -/
theorem version_gating (vOpt : Option Semver) (outcome : String → QueryResult)
    (mm : List (String × MetricMapNamespace)) (ns : String) (hg : gatedNamespace ns = true) :
    (semverLT (effectiveVersion vOpt) version42 = true →
      ns ∉ (queryNamespaceMappings (effectiveVersion vOpt) outcome mm).1 ∧
      ∀ s : Sample, (ns, s) ∉ (queryNamespaceMappings (effectiveVersion vOpt) outcome mm).2.1) ∧
    (vOpt = none →
      ns ∉ (queryNamespaceMappings (effectiveVersion vOpt) outcome mm).1 ∧
      ∀ s : Sample, (ns, s) ∉ (queryNamespaceMappings (effectiveVersion vOpt) outcome mm).2.1) ∧
    (semverLT (effectiveVersion vOpt) version42 = false →
      ns ∈ mm.map Prod.fst →
      ns ∈ (queryNamespaceMappings (effectiveVersion vOpt) outcome mm).1) := by
  refine ⟨?_, ?_, ?_⟩
  · intro hlt
    exact gated_table_skipped _ outcome ns hg hlt mm
  · rintro rfl
    exact gated_table_skipped _ outcome ns hg (by decide) mm
  · intro hge hmem
    refine table_queried_of_not_skipped _ outcome ns ?_ mm hmem
    rintro ⟨_, hlt⟩
    rw [hge] at hlt
    cases hlt

/-- Witness for C3: with detected version 4.1.0 the backend-stats table
is not queried, and with 4.2.0 exactly it is queried. -/
theorem version_gating_witness :
    "pool_backend_stats" ∉ (queryNamespaceMappings (effectiveVersion (some ⟨4, 1, 0⟩))
        (fun _ => .ok [] []) (makeDescMap metricMaps "pgpool2")).1 ∧
    "pool_backend_stats" ∈ (queryNamespaceMappings (effectiveVersion (some ⟨4, 2, 0⟩))
        (fun _ => .ok [] []) (makeDescMap metricMaps "pgpool2")).1 := by
  constructor
  · exact ((version_gating (some ⟨4, 1, 0⟩) (fun _ => .ok [] [])
      (makeDescMap metricMaps "pgpool2") "pool_backend_stats" (by decide)).1 (by decide)).1
  · exact (version_gating (some ⟨4, 2, 0⟩) (fun _ => .ok [] [])
      (makeDescMap metricMaps "pgpool2") "pool_backend_stats" (by decide)).2.2
      (by decide) (by decide)

/-- C2: for the 3-row process table with two rows bound to (alice, app)
and one unbound, the aggregator emits exactly frontend_total 3, one
grouped frontend_used sample with labels alice/app and value 2, and
frontend_used_ratio 2/3; in general the total sample counts all rows,
the used count counts rows with both database and username non-empty,
the ratio sample divides used by total, and the grouped frontend_used
samples are exactly one per distinct (username, database) pair among the
used rows, valued by the number of rows sharing the pair. -/
theorem pool_processes_aggregation :
    (∀ rows : List ProcRow,
      (⟨"pgpool2_frontend_total", [], [], .gauge, .num (rows.length : ℚ)⟩ : Sample)
          ∈ poolProcessesSamples rows ∧
      (⟨"pgpool2_frontend_used_ratio", [], [], .gauge,
          goDiv (.num (frontendUsed rows : ℚ)) (.num (rows.length : ℚ))⟩ : Sample)
          ∈ poolProcessesSamples rows ∧
      frontendUsed rows = (rows.filter (fun r => r.database ≠ "" ∧ r.username ≠ "")).length ∧
      (∀ s ∈ poolProcessesSamples rows, s.fqName = "pgpool2_frontend_used" →
        ∃ p ∈ frontendPairs rows,
          s = ⟨"pgpool2_frontend_used", ["username", "database"], [p.1, p.2], .gauge,
            .num (frontendPairCount rows p : ℚ)⟩) ∧
      (∀ p ∈ frontendPairs rows,
        (⟨"pgpool2_frontend_used", ["username", "database"], [p.1, p.2], .gauge,
          .num (frontendPairCount rows p : ℚ)⟩ : Sample) ∈ poolProcessesSamples rows)) ∧
    poolProcessesSamples [⟨"app", "alice"⟩, ⟨"app", "alice"⟩, ⟨"", ""⟩] =
      [⟨"pgpool2_frontend_used", ["username", "database"], ["alice", "app"], .gauge, .num 2⟩,
       ⟨"pgpool2_frontend_total", [], [], .gauge, .num 3⟩,
       ⟨"pgpool2_frontend_used_ratio", [], [], .gauge, .num (2 / 3 : ℚ)⟩] := by
  constructor
  · intro rows
    refine ⟨?_, ?_, rfl, ?_, ?_⟩
    · simp [poolProcessesSamples, frontendTotal]
    · simp [poolProcessesSamples, frontendTotal]
    · intro s hs hname
      rcases List.mem_append.mp hs with hmap | htail
      · obtain ⟨p, hp, rfl⟩ := List.mem_map.mp hmap
        exact ⟨p, hp, rfl⟩
      · simp only [List.mem_cons, List.not_mem_nil, or_false] at htail
        rcases htail with htail | htail
        · rw [htail] at hname
          simp at hname
        · rw [htail] at hname
          simp at hname
    · intro p hp
      exact List.mem_append.mpr (Or.inl (List.mem_map.mpr ⟨p, hp, rfl⟩))
  · rw [poolProcessesSamples]
    have hpairs : frontendPairs [⟨"app", "alice"⟩, ⟨"app", "alice"⟩, ⟨"", ""⟩] =
        [("alice", "app")] := by decide
    have hcount : frontendPairCount [⟨"app", "alice"⟩, ⟨"app", "alice"⟩, ⟨"", ""⟩]
        ("alice", "app") = 2 := by decide
    have hused : frontendUsed [⟨"app", "alice"⟩, ⟨"app", "alice"⟩, ⟨"", ""⟩] = 2 := by decide
    have htot : frontendTotal [⟨"app", "alice"⟩, ⟨"app", "alice"⟩, ⟨"", ""⟩] = 3 := by decide
    rw [hpairs, List.map_cons, List.map_nil, hcount, hused, htot]
    norm_num [goDiv]

/-- Witness for C2: applies the grouped-sample direction of
`pool_processes_aggregation` at the scenario rows and the pair
(alice, app). -/
theorem pool_processes_aggregation_witness :
    (⟨"pgpool2_frontend_used", ["username", "database"], ["alice", "app"], .gauge,
        .num (frontendPairCount [⟨"app", "alice"⟩, ⟨"app", "alice"⟩, ⟨"", ""⟩]
          ("alice", "app") : ℚ)⟩ : Sample)
      ∈ poolProcessesSamples [⟨"app", "alice"⟩, ⟨"app", "alice"⟩, ⟨"", ""⟩] := by
  exact (pool_processes_aggregation.1 [⟨"app", "alice"⟩, ⟨"app", "alice"⟩, ⟨"", ""⟩]).2.2.2.2
    ("alice", "app") (by decide)

/-- Every sample of one per-process block carries one of the three
by-process metric names. -/
theorem pid_block_names (rows : List PoolRow) (pid : String) :
    ∀ s ∈ poolPoolsPidBlock rows pid,
      s.fqName = "pgpool2_backend_by_process_used" ∨
      s.fqName = "pgpool2_backend_by_process_used_ratio" ∨
      s.fqName = "pgpool2_backend_by_process_total" := by
  intro s hs
  rcases List.mem_append.mp hs with hmap | htail
  · obtain ⟨k, _, rfl⟩ := List.mem_map.mp hmap
    exact Or.inl rfl
  · simp only [List.mem_cons, List.not_mem_nil, or_false] at htail
    rcases htail with htail | htail
    · rw [htail]; exact Or.inr (Or.inl rfl)
    · rw [htail]; exact Or.inr (Or.inr rfl)

/-- Filtering the per-process blocks by one of the three
process-independent total names yields nothing. -/
theorem pid_blocks_filter_totals (rows : List PoolRow) (n : String)
    (hn : n = "pgpool2_backend_total" ∨ n = "pgpool2_backend_used" ∨
      n = "pgpool2_backend_used_ratio") :
    (((usedPids rows).map (poolPoolsPidBlock rows)).flatten.filter
      (fun s => s.fqName = n)) = [] := by
  rw [List.filter_eq_nil_iff]
  intro s hs
  rw [List.mem_flatten] at hs
  obtain ⟨block, hb, hsb⟩ := hs
  obtain ⟨pid, _, rfl⟩ := List.mem_map.mp hb
  have hnames := pid_block_names rows pid s hsb
  rcases hn with rfl | rfl | rfl <;> rcases hnames with h | h | h <;> simp [h]

/-- C9: the pool_pools aggregator emits exactly one backend_total
sample counting the rows with a non-empty pool_pid, exactly one
backend_used sample counting the rows with a non-empty username, and
exactly one backend_used_ratio sample valued used divided by total,
the zero-total case producing NaN (0/0) rather than an error or a
guarded substitute. -/
theorem pool_pools_totals (rows : List PoolRow) :
    ((poolPoolsSamples rows).filter (fun s => s.fqName = "pgpool2_backend_total")) =
      [⟨"pgpool2_backend_total", [], [], .gauge,
        .num ((rows.filter (fun r => r.pool_pid ≠ "")).length : ℚ)⟩] ∧
    ((poolPoolsSamples rows).filter (fun s => s.fqName = "pgpool2_backend_used")) =
      [⟨"pgpool2_backend_used", [], [], .gauge,
        .num ((rows.filter (fun r => r.username ≠ "")).length : ℚ)⟩] ∧
    ((poolPoolsSamples rows).filter (fun s => s.fqName = "pgpool2_backend_used_ratio")) =
      [⟨"pgpool2_backend_used_ratio", [], [], .gauge,
        goDiv (.num (totalBackendsInUse rows : ℚ)) (.num (totalBackends rows : ℚ))⟩] ∧
    (totalBackends rows = 0 → totalBackendsInUse rows = 0 →
      ((poolPoolsSamples rows).filter (fun s => s.fqName = "pgpool2_backend_used_ratio")) =
        [⟨"pgpool2_backend_used_ratio", [], [], .gauge, .nan⟩]) := by
  have h1 : ((poolPoolsSamples rows).filter (fun s => s.fqName = "pgpool2_backend_total")) =
      [⟨"pgpool2_backend_total", [], [], .gauge, .num (totalBackends rows : ℚ)⟩] := by
    rw [poolPoolsSamples, List.filter_append,
      pid_blocks_filter_totals rows _ (Or.inl rfl), List.nil_append]
    rfl
  have h2 : ((poolPoolsSamples rows).filter (fun s => s.fqName = "pgpool2_backend_used")) =
      [⟨"pgpool2_backend_used", [], [], .gauge, .num (totalBackendsInUse rows : ℚ)⟩] := by
    rw [poolPoolsSamples, List.filter_append,
      pid_blocks_filter_totals rows _ (Or.inr (Or.inl rfl)), List.nil_append]
    rfl
  have h3 : ((poolPoolsSamples rows).filter (fun s => s.fqName = "pgpool2_backend_used_ratio")) =
      [⟨"pgpool2_backend_used_ratio", [], [], .gauge,
        goDiv (.num (totalBackendsInUse rows : ℚ)) (.num (totalBackends rows : ℚ))⟩] := by
    rw [poolPoolsSamples, List.filter_append,
      pid_blocks_filter_totals rows _ (Or.inr (Or.inr rfl)), List.nil_append]
    rfl
  refine ⟨h1, h2, h3, ?_⟩
  intro ht hu
  rw [h3, ht, hu]
  norm_num [goDiv]

/-- Witness for C9: the empty result set has zero total and zero used,
and its ratio sample is NaN. -/
theorem pool_pools_totals_witness :
    ((poolPoolsSamples ([] : List PoolRow)).filter
        (fun s => s.fqName = "pgpool2_backend_used_ratio")) =
      [⟨"pgpool2_backend_used_ratio", [], [], .gauge, .nan⟩] := by
  exact (pool_pools_totals []).2.2.2 rfl rfl

/-- C10: the per-process samples backend_by_process_used_ratio and
backend_by_process_total exist for a process id exactly when some row of
that process is bound to a non-empty username; a process all of whose
rows are unbound receives no per-process sample at all, while its rows
still count into backend_total. -/
theorem pool_pools_per_process_only_used (rows : List PoolRow) (pid : String) :
    ((∃ s ∈ poolPoolsSamples rows,
        (s.fqName = "pgpool2_backend_by_process_used_ratio" ∨
          s.fqName = "pgpool2_backend_by_process_total") ∧ s.labelValues = [pid]) ↔
      pid ∈ usedPids rows) ∧
    (pid ∈ usedPids rows ↔ ∃ r ∈ rows, r.pool_pid = pid ∧ r.username ≠ "") ∧
    ((∀ r ∈ rows, r.pool_pid = pid → r.username = "") →
      (∀ s ∈ poolPoolsSamples rows,
        (s.fqName = "pgpool2_backend_by_process_used_ratio" ∨
          s.fqName = "pgpool2_backend_by_process_total") → s.labelValues ≠ [pid]) ∧
      (⟨"pgpool2_backend_total", [], [], .gauge, .num (totalBackends rows : ℚ)⟩ : Sample)
        ∈ poolPoolsSamples rows) := by
  have husedPids : pid ∈ usedPids rows ↔ ∃ r ∈ rows, r.pool_pid = pid ∧ r.username ≠ "" := by
    simp only [usedPids, usedRows, List.mem_dedup, List.mem_map, List.mem_filter,
      decide_eq_true_eq]
    constructor
    · rintro ⟨r, ⟨hr, hu⟩, hp⟩
      exact ⟨r, hr, hp, hu⟩
    · rintro ⟨r, hr, hp, hu⟩
      exact ⟨r, ⟨hr, hu⟩, hp⟩
  have hmain : (∃ s ∈ poolPoolsSamples rows,
      (s.fqName = "pgpool2_backend_by_process_used_ratio" ∨
        s.fqName = "pgpool2_backend_by_process_total") ∧ s.labelValues = [pid]) ↔
      pid ∈ usedPids rows := by
    constructor
    · rintro ⟨s, hs, hname, hlv⟩
      rcases List.mem_append.mp hs with hflat | htail
      · rw [List.mem_flatten] at hflat
        obtain ⟨block, hb, hsb⟩ := hflat
        obtain ⟨pid', hpid', rfl⟩ := List.mem_map.mp hb
        rcases List.mem_append.mp hsb with hmap | hpp
        · obtain ⟨k, _, rfl⟩ := List.mem_map.mp hmap
          simp at hname
        · simp only [List.mem_cons, List.not_mem_nil, or_false] at hpp
          rcases hpp with rfl | rfl
          · have hpe : pid' = pid := by simpa using hlv
            exact hpe ▸ hpid'
          · have hpe : pid' = pid := by simpa using hlv
            exact hpe ▸ hpid'
      · simp only [List.mem_cons, List.not_mem_nil, or_false] at htail
        rcases htail with rfl | rfl | rfl <;> simp at hname
    · intro hp
      refine ⟨⟨"pgpool2_backend_by_process_used_ratio", ["pool_pid"], [pid], .gauge,
        goDiv (.num (usedProcessBackends rows pid : ℚ))
          (.num (totalBackendsByProcess rows pid : ℚ))⟩, ?_, Or.inl rfl, rfl⟩
      refine List.mem_append.mpr (Or.inl ?_)
      rw [List.mem_flatten]
      refine ⟨poolPoolsPidBlock rows pid, List.mem_map.mpr ⟨pid, hp, rfl⟩, ?_⟩
      exact List.mem_append.mpr (Or.inr (List.mem_cons_self _ _))
  refine ⟨hmain, husedPids, ?_⟩
  intro hall
  have hnot : pid ∉ usedPids rows := by
    rw [husedPids]
    rintro ⟨r, hr, hp, hu⟩
    exact hu (hall r hr hp)
  constructor
  · intro s hs hname hlv
    exact hnot (hmain.mp ⟨s, hs, hname, hlv⟩)
  · exact List.mem_append.mpr (Or.inr (List.mem_cons_self _ _))

/-- Witness for C10: a single-row table whose only process has an
unbound slot still emits the backend_total sample counting that row. -/
theorem pool_pools_per_process_only_used_witness :
    (⟨"pgpool2_backend_total", [], [], .gauge,
        .num (totalBackends [⟨"1", "0", "0", "", ""⟩] : ℚ)⟩ : Sample)
      ∈ poolPoolsSamples [⟨"1", "0", "0", "", ""⟩] := by
  exact ((pool_pools_per_process_only_used [⟨"1", "0", "0", "", ""⟩] "1").2.2 (by decide)).2

/-- A successful association-list lookup witnesses membership. -/
theorem lookup_mem_metricMap (c : String) (m : MetricMap) :
    ∀ l : List (String × MetricMap), List.lookup c l = some m → (c, m) ∈ l := by
  intro l
  induction l with
  | nil => intro h; cases h
  | cons p rest ih =>
    obtain ⟨k, v⟩ := p
    intro h
    by_cases hck : c = k
    · subst hck
      simp only [List.lookup, beq_self_eq_true] at h
      injection h with h
      subst h
      exact List.mem_cons_self _ _
    · have hbeq : (c == k) = false := beq_eq_false_iff_ne.mpr hck
      simp only [List.lookup, hbeq] at h
      exact List.mem_cons_of_mem _ (ih h)

/-- Every non-discarded compiled entry of one table shares the table's
label-name list, which `makeDescMapEntry` computes once. -/
theorem makeDescMapEntry_labels (nspace : String)
    (t : String × List (String × ColumnMapping)) :
    ∀ p ∈ (makeDescMapEntry nspace t).2.columnMappings,
      p.2.discard = false → p.2.varLabels = (makeDescMapEntry nspace t).2.labels := by
  intro p hp hd
  simp only [makeDescMapEntry] at hp ⊢
  rw [List.mem_filterMap] at hp
  obtain ⟨q, _, hpq⟩ := hp
  cases hu : q.2.usage <;> rw [hu] at hpq
  · obtain rfl := Option.some.inj hpq
    simp at hd
  · obtain rfl := Option.some.inj hpq
    simp at hd
  · obtain rfl := Option.some.inj hpq
    rfl
  · obtain rfl := Option.some.inj hpq
    rfl
  · cases hpq
  · cases hpq

/-- Samples of the per-column loop carry the row's label values and the
descriptor data of a non-discarded compiled entry. -/
theorem processColumns_samples (nspace : String) (mapping : MetricMapNamespace)
    (labels : List String) (data : List DbCell) :
    ∀ ps : List (ℕ × String), ∀ s ∈ (processColumns nspace mapping labels data ps).1,
      s.labelValues = labels ∧
      ∃ c m, List.lookup c mapping.columnMappings = some m ∧ m.discard = false ∧
        s.varLabels = m.varLabels := by
  intro ps
  induction ps with
  | nil => intro s hs; cases hs
  | cons p rest ih =>
    intro s hs
    cases hl : List.lookup p.2 mapping.columnMappings with
    | none =>
      simp only [processColumns, hl] at hs
      exact ih s hs
    | some m =>
      simp only [processColumns, hl] at hs
      by_cases hd : m.discard = true
      · rw [if_pos hd] at hs
        exact ih s hs
      · rw [if_neg hd] at hs
        have hdf : m.discard = false := by
          cases hb : m.discard
          · rfl
          · exact absurd hb hd
        by_cases hst : p.2 = "status"
        · rw [if_pos hst] at hs
          cases hds : dbToString (cellAt data p.1) with
          | mk v ok =>
            cases ok
            · simp only [hds] at hs
              exact ih s hs
            · simp only [hds] at hs
              rcases List.mem_cons.mp hs with rfl | hmem
              · exact ⟨rfl, p.2, m, hl, hdf, rfl⟩
              · exact ih s hmem
        · rw [if_neg hst] at hs
          cases hdf64 : dbToFloat64 (cellAt data p.1) with
          | mk v ok =>
            cases ok
            · simp only [hdf64] at hs
              exact ih s hs
            · simp only [hdf64] at hs
              rcases List.mem_cons.mp hs with rfl | hmem
              · exact ⟨rfl, p.2, m, hl, hdf, rfl⟩
              · exact ih s hmem

/-- Every sample of the generic row loop comes from some row. -/
theorem queryGenericRows_samples (nspace : String) (mapping : MetricMapNamespace)
    (cols : List String) :
    ∀ rows, ∀ s ∈ (queryGenericRows nspace mapping cols rows).1,
      ∃ data ∈ rows, s ∈ (processRow nspace mapping cols data).1 := by
  intro rows
  induction rows with
  | nil => intro s hs; cases hs
  | cons r rs ih =>
    intro s hs
    simp only [queryGenericRows] at hs
    rcases List.mem_append.mp hs with h | h
    · exact ⟨r, List.mem_cons_self _ _, h⟩
    · obtain ⟨d, hd, hsd⟩ := ih s h
      exact ⟨d, List.mem_cons_of_mem _ hd, hsd⟩

/-- C7: for every status table compiled by the descriptor compiler,
the non-label descriptors all share the one label-name list the
compiler computed for the table, and every sample the generic scraper
emits for that table carries exactly that label-name list, with label
values produced in the same order and count from its row. -/
theorem generic_label_invariant (mm : MetricMaps) (nspace : String)
    (t : String × List (String × ColumnMapping)) (ht : t ∈ mm) :
    (makeDescMapEntry nspace t) ∈ makeDescMap mm nspace ∧
    (∀ p ∈ (makeDescMapEntry nspace t).2.columnMappings,
      p.2.discard = false → p.2.varLabels = (makeDescMapEntry nspace t).2.labels) ∧
    (∀ cols rows, ∀ s ∈ (queryGenericRows (makeDescMapEntry nspace t).1
        (makeDescMapEntry nspace t).2 cols rows).1,
      s.varLabels = (makeDescMapEntry nspace t).2.labels ∧
      s.labelValues.length = (makeDescMapEntry nspace t).2.labels.length ∧
      ∃ data ∈ rows, s.labelValues = rowLabels (makeDescMapEntry nspace t).2 cols data) := by
  refine ⟨List.mem_map.mpr ⟨t, ht, rfl⟩, makeDescMapEntry_labels nspace t, ?_⟩
  intro cols rows s hs
  obtain ⟨data, hdata, hsd⟩ := queryGenericRows_samples _ _ cols rows s hs
  obtain ⟨hlv, c, m, hl, hdisc, hvl⟩ :=
    processColumns_samples _ _ (rowLabels _ cols data) data cols.enum s hsd
  have hml := makeDescMapEntry_labels nspace t (c, m) (lookup_mem_metricMap c m _ hl) hdisc
  refine ⟨hvl.trans hml, ?_, data, hdata, hlv⟩
  rw [hlv, rowLabels, List.length_map]

/-- Witness for C7: a concrete pool_nodes row emits its status sample
with label names exactly the compiled label list of the table. -/
theorem generic_label_invariant_witness :
    (⟨"pgpool2_pool_nodes_status", ["hostname", "port", "role"],
        ["h1", "5432", "primary"], .gauge, .num 1⟩ : Sample).varLabels =
      (makeDescMapEntry "pgpool2" poolNodesTable).2.labels := by
  exact ((generic_label_invariant metricMaps "pgpool2" poolNodesTable (by decide)).2.2
    ["hostname", "port", "role", "status", "select_cnt", "replication_delay"]
    [[.str "h1", .str "5432", .str "primary", .str "up", .int 10, .int 0]]
    ⟨"pgpool2_pool_nodes_status", ["hostname", "port", "role"],
      ["h1", "5432", "primary"], .gauge, .num 1⟩ (by decide)).1

/-- One step of the per-column loop, isolated: the cons case splits off
the head column's own samples and errors. -/
theorem processColumns_cons (nspace : String) (mapping : MetricMapNamespace)
    (labels : List String) (data : List DbCell) (p : ℕ × String) (ps : List (ℕ × String)) :
    processColumns nspace mapping labels data (p :: ps) =
      ((processColumns nspace mapping labels data [p]).1 ++
          (processColumns nspace mapping labels data ps).1,
        (processColumns nspace mapping labels data [p]).2 ++
          (processColumns nspace mapping labels data ps).2) := by
  cases hl : List.lookup p.2 mapping.columnMappings with
  | none => simp [processColumns, hl]
  | some m =>
    simp only [processColumns, hl]
    by_cases hd : m.discard = true
    · simp [hd]
    · rw [if_neg hd, if_neg hd]
      by_cases hst : p.2 = "status"
      · rw [if_pos hst, if_pos hst]
        cases hds : dbToString (cellAt data p.1) with
        | mk v ok => cases ok <;> simp [hds]
      · rw [if_neg hst, if_neg hst]
        cases hdf64 : dbToFloat64 (cellAt data p.1) with
        | mk v ok => cases ok <;> simp [hdf64]

/-- The per-column loop distributes over appended column lists. -/
theorem processColumns_append (nspace : String) (mapping : MetricMapNamespace)
    (labels : List String) (data : List DbCell) :
    ∀ xs ys : List (ℕ × String),
      processColumns nspace mapping labels data (xs ++ ys) =
        ((processColumns nspace mapping labels data xs).1 ++
            (processColumns nspace mapping labels data ys).1,
          (processColumns nspace mapping labels data xs).2 ++
            (processColumns nspace mapping labels data ys).2) := by
  intro xs
  induction xs with
  | nil => intro ys; simp [processColumns]
  | cons p rest ih =>
    intro ys
    rw [List.cons_append, processColumns_cons nspace mapping labels data p (rest ++ ys),
      ih ys, processColumns_cons nspace mapping labels data p rest]
    simp [List.append_assoc]

/-- C8: in the generic scraper, a failed cell conversion for one
(row, column) pair is non-fatal — exactly that sample is dropped and
one non-fatal error is recorded in its place, the samples of the other
columns of the same row are emitted unchanged, and the table's scrape
returns no fatal error on successfully queried rows. -/
theorem generic_conversion_failure_nonfatal (nspace : String) (mapping : MetricMapNamespace)
    (labels : List String) (data : List DbCell) (l1 l2 : List (ℕ × String)) (i : ℕ) (c : String)
    (m : MetricMap) (hl : List.lookup c mapping.columnMappings = some m)
    (hd : m.discard = false) (hst : c ≠ "status")
    (hfail : (dbToFloat64 (cellAt data i)).2 = false) :
    processColumns nspace mapping labels data (l1 ++ (i, c) :: l2) =
      ((processColumns nspace mapping labels data l1).1 ++
          (processColumns nspace mapping labels data l2).1,
        (processColumns nspace mapping labels data l1).2 ++
          ("Unexpected error parsing column: " ++ nspace ++ " " ++ c) ::
            (processColumns nspace mapping labels data l2).2) ∧
    (∀ cols rows, nspace ≠ "pool_pools" → nspace ≠ "pool_processes" →
      (queryNamespaceMapping (.ok cols rows) nspace mapping).2.2 = none) := by
  constructor
  · obtain ⟨v, hv⟩ : ∃ v, dbToFloat64 (cellAt data i) = (v, false) :=
      ⟨(dbToFloat64 (cellAt data i)).1, by rw [← hfail]⟩
    have hmid : processColumns nspace mapping labels data [(i, c)] =
        ([], ["Unexpected error parsing column: " ++ nspace ++ " " ++ c]) := by
      simp only [processColumns, hl]
      rw [if_neg (by simp [hd] : ¬m.discard = true), if_neg hst]
      simp only [hv]
    rw [processColumns_append nspace mapping labels data l1 ((i, c) :: l2),
      processColumns_cons nspace mapping labels data (i, c) l2, hmid]
    simp
  · intro cols rows h1 h2
    simp [queryNamespaceMapping, h1, h2]

/-- Witness for C8: a two-column row whose first cell is unparseable
drops only that sample, records one error, and still emits the sibling
column. -/
theorem generic_conversion_failure_nonfatal_witness :
    processColumns "pool_cache" demoMapping [] [.str "oops", .int 5]
        ([] ++ (0, "a") :: [(1, "b")]) =
      ((processColumns "pool_cache" demoMapping [] [.str "oops", .int 5] []).1 ++
          (processColumns "pool_cache" demoMapping [] [.str "oops", .int 5] [(1, "b")]).1,
        (processColumns "pool_cache" demoMapping [] [.str "oops", .int 5] []).2 ++
          ("Unexpected error parsing column: " ++ "pool_cache" ++ " " ++ "a") ::
            (processColumns "pool_cache" demoMapping [] [.str "oops", .int 5] [(1, "b")]).2) := by
  exact (generic_conversion_failure_nonfatal "pool_cache" demoMapping [] [.str "oops", .int 5]
    [] [(1, "b")] 0 "a" demoMetricA rfl rfl (by decide) rfl).1

end Pgpool2Exporter
